import Mathlib

/-!
Verification development for the `change_ip.py` netplan IP-changer script.

The Python source is shallowly embedded: pure string manipulation is
translated to Lean functions over `String`/`List Char`, the `main` pipeline
is modelled as a function from its inputs (effective uid, parsed CLI
arguments, the operator's interactive responses, the wall-clock timestamp,
the netplan directory listing, the outcome of the external apply command)
to the list of side effects it performs plus an optional fatal error
message (a `SystemExit` with non-zero status).
-/

namespace ChangeIp

/-- Python str whitespace characters (space, tab, newline, carriage return,
vertical tab, form feed), as used by str.strip and str.split with no
separator. -/
def pyIsSpace (c : Char) : Bool :=
  c = ' ' || c = '\t' || c = '\n' || c = '\r' || c = '\x0b' || c = '\x0c'

/-- Python str.strip with no arguments: drop leading and trailing
whitespace. -/
def pyStrip (s : String) : String :=
  ⟨((s.data.dropWhile pyIsSpace).reverse.dropWhile pyIsSpace).reverse⟩

/-- Split a character list on a separator predicate, keeping empty fields
(so that splitting the empty list yields one empty field, as Python
str.split with an explicit separator does). -/
def splitPred (p : Char → Bool) : List Char → List (List Char)
  | [] => [[]]
  | c :: rest =>
    match splitPred p rest with
    | [] => []
    | cur :: others => if p c then [] :: cur :: others else (c :: cur) :: others

/-- Python str.split(sep) for the single-character separators the script
uses. -/
def pySplitC (s : String) (sepc : Char) : List String :=
  (splitPred (fun c => c == sepc) s.data).map (fun l => ⟨l⟩)

/-- Join a list of character lists with a separator. -/
def joinChars (sep : List Char) : List (List Char) → List Char
  | [] => []
  | [x] => x
  | x :: y :: rest => x ++ sep ++ joinChars sep (y :: rest)

/-- Python sep.join(parts). -/
def pyJoin (sep : String) (parts : List String) : String :=
  ⟨joinChars sep.data (parts.map String.data)⟩

/-- Python str.split(sep, maxsplit) for a single-character separator: at
most maxsplit splits, the remainder kept whole as the final element. -/
def pySplitCMax (s : String) (sepc : Char) (maxsplit : Nat) : List String :=
  let parts := pySplitC s sepc
  if parts.length ≤ maxsplit + 1 then parts
  else parts.take maxsplit ++ [pyJoin ⟨[sepc]⟩ (parts.drop maxsplit)]

/-- Python str.split() with no separator: split on runs of whitespace,
dropping empty fields. -/
def pyWhitespaceSplit (s : String) : List String :=
  ((splitPred pyIsSpace s.data).map (fun l => (⟨l⟩ : String))).filter (fun t => !(t == ""))

/-- Python str.splitlines for the newline-separated command outputs used
here (an empty extra field from a trailing newline is skipped by every
caller, which ignores short lines). -/
def pySplitlines (s : String) : List String :=
  pySplitC s '\n'

/-- Does the first string occur as a prefix of the second? -/
def strStarts (pre s : String) : Bool :=
  pre.data.isPrefixOf s.data

/-- Does the first string occur as a suffix of the second? -/
def strEnds (suf s : String) : Bool :=
  suf.data.reverse.isPrefixOf s.data.reverse

/-- Python os.path.join for two components. -/
def pyPathJoin (a b : String) : String :=
  if strStarts "/" b then b
  else if a = "" then b
  else if strEnds "/" a then a ++ b
  else a ++ "/" ++ b

/-- Python str.lower for the ASCII answers of the confirmation prompt. -/
def pyLowerChar (c : Char) : Char :=
  if 'A' ≤ c ∧ c ≤ 'Z' then Char.ofNat (c.toNat + 32) else c

/-- Python str.lower. -/
def pyLower (s : String) : String :=
  ⟨s.data.map pyLowerChar⟩

/-- Python str.isdigit restricted to the ASCII digits that appear in the
interactive selection prompt. -/
def pyIsDigitStr (s : String) : Bool :=
  !(s == "") && s.data.all (fun c => c.isDigit)

/-- Truthiness of an optional string, as Python evaluates `if x:` for
`x : Optional[str]` (None and the empty string are falsy). -/
def optStrTruthy : Option String → Bool
  | none => false
  | some s => !(s == "")

/-- Truthiness of an optional list, as Python evaluates `if x:` for
`x : Optional[List[str]]` (None and the empty list are falsy). -/
def optListTruthy : Option (List String) → Bool
  | none => false
  | some l => !l.isEmpty

/-- Python `x or None` for an optional string: the value when truthy,
otherwise None. -/
def pyOrNone (o : Option String) : Option String :=
  if optStrTruthy o then o else none

/-! ### Interface Inspector: `get_interfaces` (src/change_ip.py lines 56-106) -/

/-- One record of the dict returned by get_interfaces: administrative
state, optional MAC address, and the ordered list of IPv4 CIDR
addresses. -/
structure InterfaceRecord where
  state : String
  mac : Option String
  ips : List String
deriving DecidableEq, Repr

/-- Python dict assignment d[k] = v on an insertion-ordered dict modelled
as an association list: replace in place if the key exists, else append. -/
def dictSet (m : List (String × InterfaceRecord)) (k : String) (v : InterfaceRecord) :
    List (String × InterfaceRecord) :=
  match m with
  | [] => [(k, v)]
  | (k', v') :: rest => if k' = k then (k, v) :: rest else (k', v') :: dictSet rest k v

/-- Append one address to the ips list of the record stored at the given
key (the caller has just ensured the key is present). -/
def dictAppendIp (m : List (String × InterfaceRecord)) (k addr : String) :
    List (String × InterfaceRecord) :=
  match m with
  | [] => []
  | (k', v) :: rest =>
    if k' = k then (k', { v with ips := v.ips ++ [addr] }) :: rest
    else (k', v) :: dictAppendIp rest k addr

/-- Locate the token link/ether and return the following token, as the
for-loop over enumerate(tokens) does. -/
def macFromTokens : List String → Option String
  | [] => none
  | t :: rest => if t = "link/ether" then rest.head? else macFromTokens rest

/-- Process one line of `ip -o link show` output: split on the first two
colons, take the interface name from field 1 (stripped), decide UP/DOWN
from the bracketed flag list, and extract the MAC. -/
def parseLinkLine (m : List (String × InterfaceRecord)) (line : String) :
    List (String × InterfaceRecord) :=
  let parts := pySplitCMax line ':' 2
  if parts.length < 3 then m
  else
    let name := pyStrip ((parts.drop 1).headD "")
    let rest := (parts.drop 2).headD ""
    let state :=
      if rest.data.contains '<' && rest.data.contains '>' then
        let afterLt := (pySplitCMax rest '<' 1).getD 1 ""
        let flagsStr := (pySplitCMax afterLt '>' 1).getD 0 ""
        if (pySplitC flagsStr ',').contains "UP" then "UP" else "DOWN"
      else "DOWN"
    let mac := macFromTokens (pyWhitespaceSplit rest)
    dictSet m name ⟨state, mac, []⟩

/-- Process one line of `ip -o addr show` output: whitespace-split, field 1
is the interface name, field 2 the family, field 3 the CIDR address; only
inet entries are collected, inserting an UNKNOWN record for interfaces not
seen by the link query. -/
def parseAddrLine (m : List (String × InterfaceRecord)) (line : String) :
    List (String × InterfaceRecord) :=
  let parts := pyWhitespaceSplit line
  if parts.length < 4 then m
  else
    let name := parts.getD 1 ""
    let family := parts.getD 2 ""
    let addr := parts.getD 3 ""
    if family = "inet" then
      let m := if (m.lookup name).isNone then m ++ [(name, ⟨"UNKNOWN", none, []⟩)] else m
      dictAppendIp m name addr
    else m

/-- get_interfaces as a pure function of the two command outputs: the link
pass builds the records, the address pass merges in the IPv4 addresses. -/
def get_interfaces (link_output addr_output : String) : List (String × InterfaceRecord) :=
  let m := (pySplitlines link_output).foldl parseLinkLine []
  (pySplitlines addr_output).foldl parseAddrLine m

/-! ### Interface Selector: `choose_interface` (src/change_ip.py lines 109-145) -/

/-- Python int() on a string the caller has already checked to be all
decimal digits. -/
def pyToNat (s : String) : Nat :=
  s.data.foldl (fun n c => n * 10 + (c.toNat - 48)) 0

/-- Insert into a sorted list, keeping an element that compares equal
after the ones already present is not needed here since dict keys are
unique; ties keep the incoming element first. -/
def insertStr (x : String) : List String → List String
  | [] => [x]
  | y :: rest => if x ≤ y then x :: y :: rest else y :: insertStr x rest

/-- Python sorted() on a list of strings (ascending insertion sort). -/
def pySorted (l : List String) : List String :=
  l.foldr insertStr []

/-- The unbounded prompt loop of choose_interface, driven by the finite
list of operator inputs still available; returns the selection (some none
for the empty answer with allow_empty, some (names[idx-1]) for an in-range
number) paired with the number of prompts consumed, or none when the
supplied inputs run out. -/
def chooseLoop (names : List String) (allow_empty : Bool) :
    List String → Option (Option String) × Nat
  | [] => (none, 0)
  | inp :: rest =>
    let choice := pyStrip inp
    if choice == "" && allow_empty then (some none, 1)
    else if pyIsDigitStr choice then
      let idx := pyToNat choice
      if 1 ≤ idx && idx ≤ names.length then (some (names.get? (idx - 1)), 1)
      else
        let r := chooseLoop names allow_empty rest
        (r.1, r.2 + 1)
    else
      let r := chooseLoop names allow_empty rest
      (r.1, r.2 + 1)

/-- choose_interface: sort the dict keys; with no interfaces print a
message and return None immediately (consuming no input), otherwise run
the prompt loop. -/
def choose_interface (interfaces : List (String × InterfaceRecord)) (allow_empty : Bool)
    (inputs : List String) : Option (Option String) × Nat :=
  let names := pySorted (interfaces.map Prod.fst)
  if names.isEmpty then (some none, 0)
  else chooseLoop names allow_empty inputs

/-! ### Backup Manager: `backup_netplan` (src/change_ip.py lines 148-170) -/

/-- Result of backup_netplan: the timestamped backup directory path and
the names of the files copied into it. -/
structure BackupResult where
  backupDir : String
  copied : List String
deriving DecidableEq, Repr

/-- backup_netplan as a function of the directory, the formatted
timestamp, and the directory listing: every file name ending in .yaml or
.yml is copied into `netplan_dir/backup-<timestamp>`; nothing else is
copied, and the backup directory path is returned in every case. -/
def backup_netplan (netplan_dir timestamp : String) (listing : List String) : BackupResult :=
  let backup_dir := pyPathJoin netplan_dir ("backup-" ++ timestamp)
  let copied := listing.filter (fun fname => strEnds ".yaml" fname || strEnds ".yml" fname)
  ⟨backup_dir, copied⟩

/-! ### Config Renderer: `build_netplan_yaml` (src/change_ip.py lines 173-222) -/

/-- The yaml_lines list built by build_netplan_yaml: fixed header, the
optional DHCP block (emitted only when dhcp_interface is truthy, i.e.
neither None nor empty), then the static block. -/
def build_netplan_yaml_lines (static_interface address gateway : String)
    (dns_list : List String) (dhcp_interface : Option String) : List String :=
  let dns_yaml := pyJoin ", " dns_list
  let header := ["network:", "  version: 2", "  renderer: networkd", "  ethernets:"]
  let dhcpBlock : List String :=
    match dhcp_interface with
    | none => []
    | some di => if di == "" then [] else ["    " ++ di ++ ":", "      dhcp4: true"]
  let staticBlock :=
    ["    " ++ static_interface ++ ":",
     "      addresses: [" ++ address ++ "]",
     "      routes:",
     "        - to: 0.0.0.0/0",
     "          via: " ++ gateway,
     "      nameservers:",
     "        addresses: [" ++ dns_yaml ++ "]"]
  header ++ dhcpBlock ++ staticBlock

/-- build_netplan_yaml: the lines joined with newlines, with a final
trailing newline. -/
def build_netplan_yaml (static_interface address gateway : String)
    (dns_list : List String) (dhcp_interface : Option String) : String :=
  pyJoin "\n"
    (build_netplan_yaml_lines static_interface address gateway dns_list dhcp_interface) ++ "\n"

/-! ### Analysis helpers for the rendered document -/

/-- Does a character list end in a colon? -/
def endsColon : List Char → Bool
  | [] => false
  | [c] => c == ':'
  | _ :: c :: rest => endsColon (c :: rest)

/-- Recognizer for an ethernets entry line of the rendered document: an
interface key line indented by exactly four spaces and ending in a colon.
All non-key lines of the template are indented by two, six, eight or ten
spaces, so this identifies exactly the interface entries. -/
def entryLineChars (l : List Char) : Bool :=
  match l with
  | a :: b :: c :: d :: e :: rest =>
    if a = ' ' ∧ b = ' ' ∧ c = ' ' ∧ d = ' ' ∧ e ≠ ' ' then endsColon (e :: rest)
    else false
  | _ => false

/-- String form of the ethernets entry-line recognizer. -/
def entryLine (s : String) : Bool := entryLineChars s.data

/-- A well-formed interface name for rendering: non-empty and not starting
with a space, so that its key line is a proper four-space-indented entry. -/
def goodName (s : String) : Prop := ∃ c cs, s.data = c :: cs ∧ c ≠ ' '

/-! ### Apply Invoker: `apply_netplan` (src/change_ip.py lines 240-249) -/

/-- Outcome of running the external netplan command: the executable is
absent (FileNotFoundError) or it exits with some code. -/
inductive CmdOutcome where
  | notFound
  | exited (code : Nat)
deriving DecidableEq, Repr

/-- The three reported outcomes of apply_netplan. -/
inductive ApplyResult where
  | toolNotFound
  | applyFailed
  | success
deriving DecidableEq, Repr

/-- apply_netplan classifies the command outcome: FileNotFoundError is
reported as tool-not-found, a non-zero exit (CalledProcessError from
check=True) as apply-failed, and a zero exit as success. Every outcome is
caught and reported; none is re-raised. -/
def apply_netplan : CmdOutcome → ApplyResult
  | .notFound => .toolNotFound
  | .exited 0 => .success
  | .exited (_ + 1) => .applyFailed

/-! ### The `main` pipeline (src/change_ip.py lines 338-393) -/

/-- The parsed CLI arguments of parse_args: absent value-options are None,
the two directory options have their defaults, the flags default to
false. -/
structure Args where
  static_interface : Option String := none
  dhcp_interface : Option String := none
  address : Option String := none
  gateway : Option String := none
  dns : Option (List String) := none
  netplan_dir : String := "/etc/netplan"
  output : String := "01-python-netplan.yaml"
  apply : Bool := false
  no_backup : Bool := false
deriving DecidableEq, Repr

/-- The operator's responses on the interactive path: the two interface
selections resolved by choose_interface, the three raw prompt answers of
interactive_input, and the answer to the final apply-confirmation
prompt. -/
structure InteractiveEnv where
  dhcp_if : Option String := none
  static_if : Option String := none
  address : String := ""
  gateway : String := ""
  dns_raw : String := ""
  confirm_apply : String := ""
deriving DecidableEq, Repr

/-- The effective parameters main validates and renders, from either
path. -/
structure EffParams where
  dhcp_if : Option String
  static_if : Option String
  address : String
  gateway : String
  dns_list : List String
deriving DecidableEq, Repr

/-- interactive_input (src/change_ip.py lines 311-332): take the two
selections, clear the DHCP choice when both selections are truthy and
equal, strip the address and gateway answers, and split the DNS answer on
commas keeping the non-empty stripped entries. -/
def interactive_input (env : InteractiveEnv) : EffParams :=
  let dhcp_if := env.dhcp_if
  let static_if := env.static_if
  let dhcp_if :=
    if optStrTruthy dhcp_if && optStrTruthy static_if && dhcp_if == static_if then none
    else dhcp_if
  { dhcp_if := dhcp_if
    static_if := static_if
    address := pyStrip env.address
    gateway := pyStrip env.gateway
    dns_list := ((pySplitC (pyStrip env.dns_raw) ',').map pyStrip).filter (fun d => !(d == "")) }

/-- The non-interactive parameters (src/change_ip.py lines 347-352): taken
verbatim from the CLI arguments, with `args.dhcp_interface or None` for the
DHCP interface and no cross-field check. -/
def cliParams (args : Args) : EffParams :=
  { dhcp_if := pyOrNone args.dhcp_interface
    static_if := args.static_interface
    address := args.address.getD ""
    gateway := args.gateway.getD ""
    dns_list := args.dns.getD [] }

/-- have_cli_static (src/change_ip.py line 342): all four required CLI
values present and truthy. -/
def have_cli_static (args : Args) : Bool :=
  optStrTruthy args.static_interface && optStrTruthy args.address
    && optStrTruthy args.gateway && optListTruthy args.dns

/-- The effective parameters of a run: the CLI values when
have_cli_static, otherwise the interactive answers. -/
def effParams (args : Args) (env : InteractiveEnv) : EffParams :=
  if have_cli_static args then cliParams args else interactive_input env

/-- The basic validation block (src/change_ip.py lines 354-362), returning
the SystemExit message of the first failing check, or none when all four
pass. -/
def validateParams (p : EffParams) : Option String :=
  if !optStrTruthy p.static_if then some "[-] Static interface is required."
  else if p.address == "" || !(p.address.data.contains '/') then
    some "[-] Address with CIDR is required, e.g. 212.57.15.138/24."
  else if p.gateway == "" then some "[-] Gateway is required."
  else if p.dns_list.isEmpty then some "[-] At least one DNS server is required."
  else none

/-- Observable side effects of one run, in order: the interface discovery
queries of the interactive path, the backup (directory created and files
copied), the config-file write, and one invocation of the external apply
command. -/
inductive Effect where
  | queryInterfaces
  | backup (dir : String) (copied : List String)
  | writeFile (path : String) (content : String)
  | applyRun (outcome : CmdOutcome)
deriving DecidableEq, Repr

/-- Is an effect the config-file write? -/
def isWrite : Effect → Bool
  | .writeFile _ _ => true
  | _ => false

/-- Is an effect the backup step? -/
def isBackup : Effect → Bool
  | .backup _ _ => true
  | _ => false

/-- Is an effect an invocation of the external apply command? -/
def isApplyRun : Effect → Bool
  | .applyRun _ => true
  | _ => false

/-- The written content of a write effect, for comparing the documents a
run produces. -/
def writtenContent : Effect → Option String
  | .writeFile _ c => some c
  | _ => none

/-- The body of main up to (but not including) the apply step: the root
check, path selection, validation, backup, rendering and write. Returns
the effects performed in order, whether the apply command will be invoked
afterwards (either --apply with a full CLI configuration, or the operator
answering y at the confirmation prompt), and the SystemExit message when
the run terminates with a non-zero status. -/
def pymainCore (euid : Nat) (args : Args) (env : InteractiveEnv) (timestamp : String)
    (listing : List String) : List Effect × Bool × Option String :=
  if euid ≠ 0 then ([], false, some "[-] Please run this script with sudo or as root.")
  else
    let hcs := have_cli_static args
    let pre : List Effect := if hcs then [] else [Effect.queryInterfaces]
    let p := effParams args env
    match validateParams p with
    | some msg => (pre, false, some msg)
    | none =>
      let backupEffs : List Effect :=
        if !args.no_backup then
          [Effect.backup (backup_netplan args.netplan_dir timestamp listing).backupDir
            (backup_netplan args.netplan_dir timestamp listing).copied]
        else []
      let content := build_netplan_yaml (p.static_if.getD "") p.address p.gateway
        p.dns_list p.dhcp_if
      let willApply :=
        if args.apply && hcs then true
        else pyLower (pyStrip env.confirm_apply) == "y"
      (pre ++ backupEffs ++ [Effect.writeFile (pyPathJoin args.netplan_dir args.output) content],
        willApply, none)

/-- main as a whole: the core pipeline followed by at most one invocation
of the external apply command, whose outcome is reported but never changes
the effects already performed or the (normal) exit status. -/
def pymain (euid : Nat) (args : Args) (env : InteractiveEnv) (timestamp : String)
    (listing : List String) (outcome : CmdOutcome) : List Effect × Option String :=
  let r := pymainCore euid args env timestamp listing
  (r.1 ++ (if r.2.1 then [Effect.applyRun outcome] else []), r.2.2)

/-- Failure of the basic validation block: some required field is missing
or structurally wrong (static interface not a non-empty string, address
empty or lacking a CIDR slash, gateway empty, DNS list empty). -/
def invalidParams (p : EffParams) : Prop :=
  optStrTruthy p.static_if = false ∨ p.address = "" ∨ p.address.data.contains '/' = false
    ∨ p.gateway = "" ∨ p.dns_list = []

/-! ### Concrete run inputs used by closed statements -/

/-- Interactive responses used to exercise the interactive path
concretely. -/
def envW : InteractiveEnv :=
  { dhcp_if := some "x", static_if := some "ens36", address := "1.2.3.4/24",
    gateway := "1.2.3.1", dns_raw := "8.8.8.8", confirm_apply := "n" }

/-- Non-interactive arguments naming the same interface for DHCP and
static. -/
def argsDupX : Args :=
  { static_interface := some "ens36", dhcp_interface := some "ens36",
    address := some "212.57.15.138/24", gateway := some "212.57.15.129",
    dns := some ["8.8.8.8"], no_backup := true }

/-- The same non-interactive arguments with no DHCP interface. -/
def argsSepX : Args :=
  { static_interface := some "ens36", dhcp_interface := none,
    address := some "212.57.15.138/24", gateway := some "212.57.15.129",
    dns := some ["8.8.8.8"], no_backup := true }

/-- Non-interactive arguments missing only the dns parameter. -/
def argsNoDnsX : Args :=
  { static_interface := some "ens36", address := some "212.57.15.138/24",
    gateway := some "212.57.15.129" }

/-- Interactive responses supplying a complete valid configuration. -/
def envNoDnsX : InteractiveEnv :=
  { dhcp_if := none, static_if := some "ens36", address := "10.0.0.5/24",
    gateway := "10.0.0.1", dns_raw := "8.8.8.8", confirm_apply := "n" }

set_option maxRecDepth 16384

/-! ### Helper lemmas -/

theorem endsColon_cons_concat (c : Char) (l : List Char) :
    endsColon (c :: (l ++ [':'])) = true := by
  induction l generalizing c with
  | nil => rfl
  | cons b t ih => simpa [endsColon] using ih b

theorem entryLine_key (s : String) (c : Char) (cs : List Char)
    (hd : s.data = c :: cs) (hc : c ≠ ' ') :
    entryLine ("    " ++ s ++ ":") = true := by
  have h1 : ("    " ++ s ++ ":").data = ' ' :: ' ' :: ' ' :: ' ' :: (c :: (cs ++ [':'])) := by
    rw [String.data_append, String.data_append, hd]; rfl
  rw [entryLine, h1]
  show (if ' ' = ' ' ∧ ' ' = ' ' ∧ ' ' = ' ' ∧ ' ' = ' ' ∧ c ≠ ' ' then
      endsColon (c :: (cs ++ [':'])) else false) = true
  rw [if_pos ⟨rfl, rfl, rfl, rfl, hc⟩, endsColon_cons_concat]

theorem key_ne_dhcp4 (s : String) : "      dhcp4: true" ≠ "    " ++ s ++ ":" := by
  intro h
  have h2 := congrArg (fun x => endsColon x.data) h
  simp only [String.data_append] at h2
  have h3 : ("    ".data ++ s.data) ++ ":".data = (' ' :: (("   ".data ++ s.data) ++ [':'])) := by
    simp
  rw [h3, endsColon_cons_concat] at h2
  exact absurd h2 (by decide)

theorem ne_of_char6 (s t : String) (c₁ c₂ : Char) (h₁ : s.data.get? 6 = some c₁)
    (h₂ : t.data.get? 6 = some c₂) (hc : c₁ ≠ c₂) : s ≠ t := by
  intro he
  rw [he, h₂] at h₁
  exact hc (Option.some.inj h₁).symm

theorem build_lines_none_eq (s a g : String) (dns : List String) :
    build_netplan_yaml_lines s a g dns none
      = ["network:", "  version: 2", "  renderer: networkd", "  ethernets:",
         "    " ++ s ++ ":",
         "      addresses: [" ++ a ++ "]",
         "      routes:",
         "        - to: 0.0.0.0/0",
         "          via: " ++ g,
         "      nameservers:",
         "        addresses: [" ++ pyJoin ", " dns ++ "]"] := by
  simp [build_netplan_yaml_lines]

theorem build_lines_some_eq (s a g di : String) (dns : List String)
    (hdib : (di == "") = false) :
    build_netplan_yaml_lines s a g dns (some di)
      = ["network:", "  version: 2", "  renderer: networkd", "  ethernets:",
         "    " ++ di ++ ":",
         "      dhcp4: true",
         "    " ++ s ++ ":",
         "      addresses: [" ++ a ++ "]",
         "      routes:",
         "        - to: 0.0.0.0/0",
         "          via: " ++ g,
         "      nameservers:",
         "        addresses: [" ++ pyJoin ", " dns ++ "]"] := by
  simp [build_netplan_yaml_lines, hdib]

theorem pymainCore_env_congr (euid : Nat) (args : Args) (env₁ env₂ : InteractiveEnv)
    (ts : String) (listing : List String)
    (hp : effParams args env₁ = effParams args env₂)
    (hc : env₁.confirm_apply = env₂.confirm_apply) :
    pymainCore euid args env₁ ts listing = pymainCore euid args env₂ ts listing := by
  unfold pymainCore
  rw [hp, hc]

theorem pymainCore_build_congr (euid : Nat) (args : Args) (env₁ env₂ : InteractiveEnv)
    (ts : String) (listing : List String)
    (h1 : (effParams args env₁).static_if = (effParams args env₂).static_if)
    (h2 : (effParams args env₁).address = (effParams args env₂).address)
    (h3 : (effParams args env₁).gateway = (effParams args env₂).gateway)
    (h4 : (effParams args env₁).dns_list = (effParams args env₂).dns_list)
    (h5 : build_netplan_yaml ((effParams args env₁).static_if.getD "")
        (effParams args env₁).address (effParams args env₁).gateway
        (effParams args env₁).dns_list (effParams args env₁).dhcp_if
      = build_netplan_yaml ((effParams args env₂).static_if.getD "")
        (effParams args env₂).address (effParams args env₂).gateway
        (effParams args env₂).dns_list (effParams args env₂).dhcp_if)
    (hc : env₁.confirm_apply = env₂.confirm_apply) :
    pymainCore euid args env₁ ts listing = pymainCore euid args env₂ ts listing := by
  have hv : validateParams (effParams args env₁) = validateParams (effParams args env₂) := by
    unfold validateParams
    rw [h1, h2, h3, h4]
  simp only [pymainCore]
  rw [hv, hc, h5]

theorem validateParams_isSome_of_invalid (p : EffParams) (h : invalidParams p) :
    (validateParams p).isSome = true := by
  rcases h with h | h | h | h | h <;>
    · unfold validateParams
      split
      · rfl
      · split
        · rfl
        · split
          · rfl
          · split
            · rfl
            · simp_all [optStrTruthy]

theorem pymainCore_error_effects (euid : Nat) (args : Args) (env : InteractiveEnv)
    (ts : String) (listing : List String)
    (hinv : invalidParams (effParams args env)) :
    (pymainCore euid args env ts listing).2.2.isSome = true
    ∧ ((pymainCore euid args env ts listing).1 = []
      ∨ (pymainCore euid args env ts listing).1 = [Effect.queryInterfaces]) := by
  have hv := validateParams_isSome_of_invalid _ hinv
  obtain ⟨msg, hmsg⟩ := Option.isSome_iff_exists.mp hv
  simp only [pymainCore]
  split
  · exact ⟨rfl, Or.inl rfl⟩
  · rw [hmsg]
    split
    · refine ⟨rfl, ?_⟩
      split
      · left; rfl
      · right; rfl
    · exact Option.noConfusion (by assumption : some msg = none)

theorem pymainCore_no_applyRun (euid : Nat) (args : Args) (env : InteractiveEnv)
    (ts : String) (listing : List String) :
    (pymainCore euid args env ts listing).1.countP isApplyRun = 0 := by
  simp only [pymainCore]
  split
  · rfl
  · split
    · split <;> rfl
    · split <;> split <;>
        simp [List.countP_cons, List.countP_append, List.countP_nil, isApplyRun]

theorem noMutationOfInvalid (euid : Nat) (args : Args) (env : InteractiveEnv)
    (ts : String) (listing : List String) (o : CmdOutcome)
    (hinv : invalidParams (effParams args env)) :
    (pymain euid args env ts listing o).2.isSome = true
    ∧ (pymain euid args env ts listing o).1.countP isBackup = 0
    ∧ (pymain euid args env ts listing o).1.countP isWrite = 0 := by
  obtain ⟨hsome, hpre⟩ := pymainCore_error_effects euid args env ts listing hinv
  have h2 : (pymainCore euid args env ts listing).2.1 = false := by
    revert hsome
    simp only [pymainCore]
    split
    · intro _; rfl
    · split
      · intro _; rfl
      · intro hx; exact absurd hx (by simp)
  refine ⟨?_, ?_, ?_⟩ <;>
    · simp only [pymain, h2, if_false]
      rcases hpre with h | h <;>
        simp [h, hsome, List.countP_append, List.countP_cons, isBackup, isWrite]

/-! ### Claim theorems -/

/-- C1 (counterexample): on the non-interactive path, choosing the same
interface for dhcpInterface and staticInterface does NOT produce the same
document as dhcpInterface = none: the written configuration differs, and
the shared interface name appears as an ethernets key twice in the one
document. -/
theorem c1_dhcp_equal_cli_counterexample :
    ((pymain 0 argsDupX {} "ts" [] .notFound).1.filterMap writtenContent
      ≠ (pymain 0 argsSepX {} "ts" [] .notFound).1.filterMap writtenContent)
    ∧ (pySplitC (((pymain 0 argsDupX {} "ts" [] .notFound).1.filterMap
        writtenContent).headD "") '\n').countP (fun l => l == "    ens36:") = 2 := by
  decide

/-- C1 (amended): on the interactive path the claim holds — whenever the
CLI arguments do not select the non-interactive path, a run whose DHCP
selection equals its STATIC selection behaves byte-for-byte identically
(same effects, same written document, same exit) to the run whose DHCP
selection is none, because interactive_input clears the DHCP choice. -/
theorem c1_dhcp_equal_cleared_interactive (euid : Nat) (args : Args) (env : InteractiveEnv)
    (ts : String) (listing : List String) (o : CmdOutcome)
    (h : have_cli_static args = false) :
    pymain euid args { env with dhcp_if := env.static_if } ts listing o
      = pymain euid args { env with dhcp_if := none } ts listing o := by
  have hcore : pymainCore euid args { env with dhcp_if := env.static_if } ts listing
      = pymainCore euid args { env with dhcp_if := none } ts listing := by
    rcases hs : env.static_if with _ | str
    · rfl
    · by_cases hstr : str = ""
      · subst hstr
        apply pymainCore_build_congr <;>
          first
            | rfl
            | (unfold effParams; split <;> rfl)
      · have hb : (str == "") = false := by simpa using hstr
        apply pymainCore_env_congr
        · unfold effParams
          rw [h]
          simp [interactive_input, hb, optStrTruthy]
        · rfl
  simp only [pymain, hcore]

/-- C1 witness: the amended theorem applied to a concrete interactive
run. -/
theorem c1_dhcp_equal_cleared_interactive_witness :
    pymain 0 {} { envW with dhcp_if := envW.static_if } "ts" [] .notFound
      = pymain 0 {} { envW with dhcp_if := none } "ts" [] .notFound :=
  c1_dhcp_equal_cleared_interactive 0 {} envW "ts" [] .notFound (by decide)

/-- C2: rendering is deterministic (build_netplan_yaml is a pure function,
so equal parameters give byte-identical output), and the spec's end-to-end
example renders to exactly the 13-line document with two-space
indentation, the DNS servers joined with a comma and space inside one
bracketed list, terminated by a newline. -/
theorem c2_render_deterministic_and_example :
    (∀ (s a g : String) (dns : List String) (di : Option String),
      build_netplan_yaml s a g dns di = build_netplan_yaml s a g dns di)
    ∧ build_netplan_yaml "ens36" "212.57.15.138/24" "212.57.15.129" ["8.8.8.8", "8.8.4.4"]
        (some "ens33")
      = "network:\n  version: 2\n  renderer: networkd\n  ethernets:\n    ens33:\n      dhcp4: true\n    ens36:\n      addresses: [212.57.15.138/24]\n      routes:\n        - to: 0.0.0.0/0\n          via: 212.57.15.129\n      nameservers:\n        addresses: [8.8.8.8, 8.8.4.4]\n" :=
  ⟨fun _ _ _ _ _ => rfl, by decide⟩

/-- C3 (counterexample): a non-interactive invocation missing dns does not
exit: with the other three CLI values present and dns absent, the run
falls back to the interactive path, and with valid operator answers it
completes normally (exit status zero) after performing both a backup and a
config write — contradicting an immediate non-zero exit with no
filesystem writes. -/
theorem c3_missing_dns_counterexample :
    argsNoDnsX.dns = none
    ∧ (pymain 0 argsNoDnsX envNoDnsX "ts" ["old.yaml"] .notFound).2 = none
    ∧ (pymain 0 argsNoDnsX envNoDnsX "ts" ["old.yaml"] .notFound).1.countP isWrite = 1
    ∧ (pymain 0 argsNoDnsX envNoDnsX "ts" ["old.yaml"] .notFound).1.countP isBackup = 1 := by
  decide

/-- C3 (amended): an invocation missing dns selects the interactive path
(have_cli_static is false), and whenever the interactive DNS answer
yields an empty list the process terminates with a non-zero status having
performed no backup and no config write. -/
theorem c3_missing_dns_interactive_fallback (euid : Nat) (args : Args) (env : InteractiveEnv)
    (ts : String) (listing : List String) (o : CmdOutcome)
    (hdns : args.dns = none)
    (hraw : ((pySplitC (pyStrip env.dns_raw) ',').map pyStrip).filter (fun d => !(d == "")) = []) :
    have_cli_static args = false
    ∧ (pymain euid args env ts listing o).2.isSome = true
    ∧ (pymain euid args env ts listing o).1.countP isBackup = 0
    ∧ (pymain euid args env ts listing o).1.countP isWrite = 0 := by
  have hcs : have_cli_static args = false := by
    simp [have_cli_static, hdns, optListTruthy]
  refine ⟨hcs, ?_⟩
  apply noMutationOfInvalid
  right; right; right; right
  simp [effParams, hcs, interactive_input, hraw]

/-- C3 witness: the amended theorem applied to a concrete run with every
argument absent and an empty interactive DNS answer. -/
theorem c3_missing_dns_interactive_fallback_witness :
    have_cli_static {} = false
    ∧ (pymain 0 {} {} "ts" [] .notFound).2.isSome = true
    ∧ (pymain 0 {} {} "ts" [] .notFound).1.countP isBackup = 0
    ∧ (pymain 0 {} {} "ts" [] .notFound).1.countP isWrite = 0 :=
  c3_missing_dns_interactive_fallback 0 {} {} "ts" [] .notFound rfl (by decide)

/-- C4: for well-formed interface names, rendering with dhcpInterface =
none yields exactly one four-space-indented ethernets entry line and no
dhcp4 line anywhere in the document, while rendering with a distinct
dhcpInterface yields exactly two entry lines, with the DHCP block (its key
at line index 4 and its dhcp4 line at index 5) strictly before the static
key at index 6. -/
theorem c4_ethernets_entry_counts (s a g di : String) (dns : List String)
    (hs : goodName s) (hdi : goodName di) (hne : di ≠ s) :
    ((build_netplan_yaml_lines s a g dns none).countP entryLine = 1
      ∧ "      dhcp4: true" ∉ build_netplan_yaml_lines s a g dns none)
    ∧ ((build_netplan_yaml_lines s a g dns (some di)).countP entryLine = 2
      ∧ (build_netplan_yaml_lines s a g dns (some di)).get? 4 = some ("    " ++ di ++ ":")
      ∧ (build_netplan_yaml_lines s a g dns (some di)).get? 5 = some "      dhcp4: true"
      ∧ (build_netplan_yaml_lines s a g dns (some di)).get? 6 = some ("    " ++ s ++ ":")) := by
  obtain ⟨c, cs, hd, hc⟩ := hs
  obtain ⟨c2, cs2, hd2, hc2⟩ := hdi
  have hdib : (di == "") = false := by
    have : di ≠ "" := by
      intro h0
      rw [h0] at hd2
      exact List.noConfusion hd2
    simpa using this
  have hkey := entryLine_key s c cs hd hc
  have hkey2 := entryLine_key di c2 cs2 hd2 hc2
  have h1 : entryLine ("      addresses: [" ++ a ++ "]") = false := rfl
  have h2 : entryLine ("          via: " ++ g) = false := rfl
  have h3 : entryLine ("        addresses: [" ++ pyJoin ", " dns ++ "]") = false := rfl
  have hA : entryLine "network:" = false := by decide
  have hB : entryLine "  version: 2" = false := by decide
  have hC : entryLine "  renderer: networkd" = false := by decide
  have hD : entryLine "  ethernets:" = false := by decide
  have hE : entryLine "      routes:" = false := by decide
  have hF : entryLine "        - to: 0.0.0.0/0" = false := by decide
  have hG : entryLine "      nameservers:" = false := by decide
  have hH : entryLine "      dhcp4: true" = false := by decide
  refine ⟨⟨?_, ?_⟩, ?_, ?_, ?_, ?_⟩
  · rw [build_lines_none_eq]
    simp only [List.countP_cons, List.countP_nil,
      hkey, h1, h2, h3, hA, hB, hC, hD, hE, hF, hG]
    norm_num
  · rw [build_lines_none_eq]
    intro hmem
    simp only [List.mem_cons, List.not_mem_nil, or_false] at hmem
    rcases hmem with h | h | h | h | h | h | h | h | h | h | h
    · exact absurd h (by decide)
    · exact absurd h (by decide)
    · exact absurd h (by decide)
    · exact absurd h (by decide)
    · exact key_ne_dhcp4 s h
    · exact ne_of_char6 "      dhcp4: true" ("      addresses: [" ++ a ++ "]") 'd' 'a'
        rfl rfl (by decide) h
    · exact absurd h (by decide)
    · exact absurd h (by decide)
    · exact ne_of_char6 "      dhcp4: true" ("          via: " ++ g) 'd' ' '
        rfl rfl (by decide) h
    · exact absurd h (by decide)
    · exact ne_of_char6 "      dhcp4: true" ("        addresses: [" ++ pyJoin ", " dns ++ "]")
        'd' ' ' rfl rfl (by decide) h
  · rw [build_lines_some_eq s a g di dns hdib]
    simp only [List.countP_cons, List.countP_nil,
      hkey, hkey2, h1, h2, h3, hA, hB, hC, hD, hE, hF, hG, hH]
    norm_num
  · rw [build_lines_some_eq s a g di dns hdib]; rfl
  · rw [build_lines_some_eq s a g di dns hdib]; rfl
  · rw [build_lines_some_eq s a g di dns hdib]; rfl

/-- C4 witness: the theorem applied to the spec's example interface
names. -/
theorem c4_ethernets_entry_counts_witness :
    ((build_netplan_yaml_lines "ens36" "212.57.15.138/24" "212.57.15.129" ["8.8.8.8"]
        none).countP entryLine = 1
      ∧ "      dhcp4: true"
        ∉ build_netplan_yaml_lines "ens36" "212.57.15.138/24" "212.57.15.129" ["8.8.8.8"] none)
    ∧ ((build_netplan_yaml_lines "ens36" "212.57.15.138/24" "212.57.15.129" ["8.8.8.8"]
        (some "ens33")).countP entryLine = 2
      ∧ (build_netplan_yaml_lines "ens36" "212.57.15.138/24" "212.57.15.129" ["8.8.8.8"]
        (some "ens33")).get? 4 = some ("    " ++ "ens33" ++ ":")
      ∧ (build_netplan_yaml_lines "ens36" "212.57.15.138/24" "212.57.15.129" ["8.8.8.8"]
        (some "ens33")).get? 5 = some "      dhcp4: true"
      ∧ (build_netplan_yaml_lines "ens36" "212.57.15.138/24" "212.57.15.129" ["8.8.8.8"]
        (some "ens33")).get? 6 = some ("    " ++ "ens36" ++ ":")) :=
  c4_ethernets_entry_counts "ens36" "212.57.15.138/24" "212.57.15.129" "ens33" ["8.8.8.8"]
    ⟨'e', ['n', 's', '3', '6'], rfl, by decide⟩
    ⟨'e', ['n', 's', '3', '3'], rfl, by decide⟩
    (by decide)

/-- C5: get_interfaces merges the link query and the address query by
interface name: the spec's example yields state UP with the MAC after
link/ether and the single IPv4 address; an interface present only in the
address query is recorded with state UNKNOWN and no MAC; a link line with
no bracketed flag list gives DOWN, as does a flag list without the literal
UP; only inet entries are collected, in the order encountered, merged into
one record per interface. -/
theorem c5_interface_merge :
    get_interfaces
        "2: eth0: <BROADCAST,MULTICAST,UP,LOWER_UP> mtu 1500 qdisc fq_codel state UP mode DEFAULT group default qlen 1000    link/ether aa:bb:cc:dd:ee:ff brd ff:ff:ff:ff:ff:ff"
        "2: eth0    inet 10.0.0.5/24 brd 10.0.0.255 scope global eth0"
      = [("eth0", { state := "UP", mac := some "aa:bb:cc:dd:ee:ff", ips := ["10.0.0.5/24"] })]
    ∧ get_interfaces "" "5: veth0    inet 172.16.0.2/16 scope global"
      = [("veth0", { state := "UNKNOWN", mac := none, ips := ["172.16.0.2/16"] })]
    ∧ get_interfaces "3: dummy0: mtu 1500 link/ether 11:22:33:44:55:66" ""
      = [("dummy0", { state := "DOWN", mac := some "11:22:33:44:55:66", ips := [] })]
    ∧ get_interfaces "4: wl0: <BROADCAST,MULTICAST> mtu 1500" ""
      = [("wl0", { state := "DOWN", mac := none, ips := [] })]
    ∧ get_interfaces "2: eth0: <UP> mtu 1500 link/ether aa:bb:cc:dd:ee:ff"
        "2: eth0    inet6 fe80::1/64 scope link\n2: eth0    inet 10.0.0.5/24 brd 10.0.0.255\n2: eth0    inet 192.168.1.2/24 brd 192.168.1.255"
      = [("eth0",
          { state := "UP", mac := some "aa:bb:cc:dd:ee:ff",
            ips := ["10.0.0.5/24", "192.168.1.2/24"] })] := by
  decide

/-- C6: backup_netplan always returns the timestamped backup directory
path under the target directory, copies a file iff its name ends in .yaml
or .yml (shown in general and on the spec's a.yaml/b.yml/c.txt example),
and performs zero copies on a directory with no matching file (the
function is total, so nothing is raised). -/
theorem c6_backup_filter :
    (∀ (dir ts : String) (listing : List String),
      (backup_netplan dir ts listing).backupDir = pyPathJoin dir ("backup-" ++ ts)
      ∧ ∀ f : String, f ∈ (backup_netplan dir ts listing).copied
          ↔ f ∈ listing ∧ (strEnds ".yaml" f || strEnds ".yml" f) = true)
    ∧ (backup_netplan "/etc/netplan" "20240101-000000" ["a.yaml", "b.yml", "c.txt"]).copied
      = ["a.yaml", "b.yml"]
    ∧ (backup_netplan "/etc/netplan" "20240101-000000" ["c.txt", "README"]).copied = [] := by
  refine ⟨?_, by decide, by decide⟩
  intro dir ts listing
  refine ⟨rfl, ?_⟩
  intro f
  simp [backup_netplan, List.mem_filter]

/-- C7: privilege and validation failures happen before any filesystem
mutation: a non-root run exits with the root error having performed no
effects at all, and any run whose effective parameters fail a validation
check (static interface missing, address empty or without a slash,
gateway empty, dns list empty) exits with a non-zero status having
performed no backup and no config write. -/
theorem c7_validation_before_mutation :
    (∀ (euid : Nat) (args : Args) (env : InteractiveEnv) (ts : String)
        (listing : List String) (o : CmdOutcome), euid ≠ 0 →
      pymain euid args env ts listing o
        = ([], some "[-] Please run this script with sudo or as root."))
    ∧ (∀ (euid : Nat) (args : Args) (env : InteractiveEnv) (ts : String)
        (listing : List String) (o : CmdOutcome), invalidParams (effParams args env) →
      (pymain euid args env ts listing o).2.isSome = true
      ∧ (pymain euid args env ts listing o).1.countP isBackup = 0
      ∧ (pymain euid args env ts listing o).1.countP isWrite = 0) := by
  constructor
  · intro euid args env ts listing o he
    simp [pymain, pymainCore, he]
  · intro euid args env ts listing o hinv
    exact noMutationOfInvalid euid args env ts listing o hinv

/-- C7 witness: both parts applied to concrete runs (non-root, and root
with every field missing). -/
theorem c7_validation_before_mutation_witness :
    (pymain 1 {} {} "ts" [] .notFound
      = ([], some "[-] Please run this script with sudo or as root."))
    ∧ ((pymain 0 {} {} "ts" [] .notFound).2.isSome = true
      ∧ (pymain 0 {} {} "ts" [] .notFound).1.countP isBackup = 0
      ∧ (pymain 0 {} {} "ts" [] .notFound).1.countP isWrite = 0) :=
  ⟨c7_validation_before_mutation.1 1 {} {} "ts" [] .notFound (by decide),
   c7_validation_before_mutation.2 0 {} {} "ts" [] .notFound (Or.inl (by decide))⟩

/-- C8: apply_netplan has exactly the three outcomes tool-not-found,
apply-failed (non-zero exit) and success (zero exit); the apply step's
outcome never changes the run's exit status or its write effects (the
already-written file is untouched), and the apply command is invoked at
most once per run (no retries). -/
theorem c8_apply_outcomes :
    (∀ o : CmdOutcome,
      (apply_netplan o = .toolNotFound ↔ o = .notFound)
      ∧ (apply_netplan o = .success ↔ o = .exited 0)
      ∧ (apply_netplan o = .applyFailed ↔ ∃ n, o = .exited (n + 1)))
    ∧ (∀ (euid : Nat) (args : Args) (env : InteractiveEnv) (ts : String)
        (listing : List String) (o₁ o₂ : CmdOutcome),
      (pymain euid args env ts listing o₁).2 = (pymain euid args env ts listing o₂).2
      ∧ (pymain euid args env ts listing o₁).1.countP isWrite
        = (pymain euid args env ts listing o₂).1.countP isWrite)
    ∧ (∀ (euid : Nat) (args : Args) (env : InteractiveEnv) (ts : String)
        (listing : List String) (o : CmdOutcome),
      (pymain euid args env ts listing o).1.countP isApplyRun ≤ 1) := by
  refine ⟨?_, ?_, ?_⟩
  · intro o
    refine ⟨?_, ?_, ?_⟩
    · cases o with
      | notFound => simp [apply_netplan]
      | exited code => cases code <;> simp [apply_netplan]
    · cases o with
      | notFound => simp [apply_netplan]
      | exited code => cases code <;> simp [apply_netplan]
    · cases o with
      | notFound => simp [apply_netplan]
      | exited code =>
        cases code with
        | zero => simp [apply_netplan]
        | succ n =>
          simp only [apply_netplan]
          constructor
          · intro _; exact ⟨n, rfl⟩
          · intro _; trivial
  · intro euid args env ts listing o₁ o₂
    constructor
    · rfl
    · cases h : (pymainCore euid args env ts listing).2.1 <;>
        simp [pymain, h, List.countP_append, List.countP_cons, List.countP_nil, isWrite]
  · intro euid args env ts listing o
    have h0 := pymainCore_no_applyRun euid args env ts listing
    cases h : (pymainCore euid args env ts listing).2.1 <;>
      simp [pymain, h, List.countP_append, List.countP_cons, List.countP_nil, isApplyRun, h0]

/-- C9: choose_interface on an empty interface mapping returns None
immediately without issuing any prompt, for every allow_empty flag — so a
selection for a required role can still be None. -/
theorem c9_choose_interface_empty (allow_empty : Bool) (inputs : List String) :
    choose_interface [] allow_empty inputs = (some none, 0) := rfl

/-- C10: build_netplan_yaml is total over arbitrary strings (every case
below is an equation of the total Lean function): an empty dns list
renders the literal line with an empty bracketed list, an empty-string
dhcpInterface renders byte-identically to none, and the address is
emitted verbatim whatever its shape. -/
theorem c10_render_total :
    (∀ (s a g : String) (di : Option String),
      "        addresses: []" ∈ build_netplan_yaml_lines s a g [] di)
    ∧ (∀ (s a g : String) (dns : List String),
      build_netplan_yaml s a g dns (some "") = build_netplan_yaml s a g dns none)
    ∧ (∀ (s a g : String) (dns : List String) (di : Option String),
      "      addresses: [" ++ a ++ "]" ∈ build_netplan_yaml_lines s a g dns di) := by
  have he : ("        addresses: [" ++ pyJoin ", " ([] : List String) ++ "]")
      = "        addresses: []" := by decide
  refine ⟨?_, fun _ _ _ _ => rfl, ?_⟩
  · intro s a g di
    match di with
    | none =>
      rw [build_lines_none_eq, he]
      simp
    | some d =>
      by_cases hd : d = ""
      · subst hd
        have hsame : build_netplan_yaml_lines s a g [] (some "")
            = build_netplan_yaml_lines s a g [] none := rfl
        rw [hsame, build_lines_none_eq, he]
        simp
      · have hdb : (d == "") = false := by simpa using hd
        rw [build_lines_some_eq s a g d [] hdb, he]
        simp
  · intro s a g dns di
    match di with
    | none =>
      rw [build_lines_none_eq]
      simp
    | some d =>
      by_cases hd : d = ""
      · subst hd
        have hsame : build_netplan_yaml_lines s a g dns (some "")
            = build_netplan_yaml_lines s a g dns none := rfl
        rw [hsame, build_lines_none_eq]
        simp
      · have hdb : (d == "") = false := by simpa using hd
        rw [build_lines_some_eq s a g d dns hdb]
        simp

end ChangeIp
